import Mathlib

/-!
# Mesh batch cache (`source/blender/draw/intern/draw_cache_extract.h`)

A shallow embedding of the declarations of `draw_cache_extract.h`:
the material count of the displayed mesh, the custom-data layer mask
`DRW_MeshCDMask`, the batch flags `DRWBatchFlag` with the group mask
`MBC_EDITUV`, the handles of `MeshBatchCache.batch`, the iteration macro
`FOREACH_MESH_BUFFER_CACHE`, the loose-geometry memo
`MeshBufferExtractionCache` with the layout of the "extend" vertex buffers,
and the request dispatcher the header declares
(`mesh_buffer_cache_create_requested`).  What the header only declares or
describes in a comment is modelled after the description of the subsystem
and marked so.

C integers are natural numbers or integers; where a width matters it is
written out (`% 2 ^ 32`, `< 2 ^ 8`).  Pointers that may be `NULL` are
`Option`s.
-/

namespace DrawCacheExtract

/-! ## `mesh_render_mat_len_get` -/

mutual
/-- The fields of `Mesh` read by `mesh_render_mat_len_get`: `totcol` and the
`edit_mesh` pointer (`none` is `NULL`). -/
inductive Mesh where
  | mk (totcol : Int) (edit_mesh : Option BMEditMesh)
/-- The field of `BMEditMesh` read by `mesh_render_mat_len_get`: the
`mesh_eval_final` pointer (`none` is `NULL`). -/
inductive BMEditMesh where
  | mk (mesh_eval_final : Option Mesh)
end

/-- Field `me->totcol`. -/
def Mesh.totcol : Mesh → Int
  | .mk t _ => t

/-- Field `me->edit_mesh`. -/
def Mesh.edit_mesh : Mesh → Option BMEditMesh
  | .mk _ e => e

/-- Field `em->mesh_eval_final`. -/
def BMEditMesh.mesh_eval_final : BMEditMesh → Option Mesh
  | .mk m => m

/-- Modelled from the spec: the macro `MAX2` is used by the header but defined
elsewhere (`BLI_utildefines.h`); it is the two-argument maximum
`((a) > (b) ? (a) : (b))`, the clamp "material count, at least 1". -/
def MAX2 (a b : Int) : Int :=
  if a > b then a else b

/-- The function `mesh_render_mat_len_get` (lines 92-99):
```c
if (me->edit_mesh && me->edit_mesh->mesh_eval_final) {
  return MAX2(1, me->edit_mesh->mesh_eval_final->totcol);
}
return MAX2(1, me->totcol);
``` -/
def mesh_render_mat_len_get (me : Mesh) : Int :=
  match me.edit_mesh with
  | some em =>
    match em.mesh_eval_final with
    | some final => MAX2 1 final.totcol
    | none => MAX2 1 me.totcol
  | none => MAX2 1 me.totcol

/-- The mesh that is displayed: the edit-mesh's `mesh_eval_final` when both
pointers are set, otherwise the mesh itself. -/
def displayed_mesh (me : Mesh) : Mesh :=
  match me.edit_mesh with
  | some em =>
    match em.mesh_eval_final with
    | some final => final
    | none => me
  | none => me

/-! ## `DRW_MeshCDMask` -/

/-- The bit-field struct `DRW_MeshCDMask` (lines 55-66).  Every field is an
unsigned bit-field; its value is a natural number below `2 ^ width`
(`DRW_MeshCDMask.wf`). -/
structure DRW_MeshCDMask where
  uv : Nat
  tan : Nat
  vcol : Nat
  sculpt_vcol : Nat
  orco : Nat
  tan_orco : Nat
  sculpt_overlays : Nat
  edit_uv : Nat
deriving DecidableEq, Repr

/-- The declared widths `uv : 8, tan : 8, vcol : 8, sculpt_vcol : 8, orco : 1,
tan_orco : 1, sculpt_overlays : 1, edit_uv : 1`, in declaration order. -/
def DRW_MeshCDMask.widths : List Nat := [8, 8, 8, 8, 1, 1, 1, 1]

/-- The field values, in declaration order. -/
def DRW_MeshCDMask.fields (m : DRW_MeshCDMask) : List Nat :=
  [m.uv, m.tan, m.vcol, m.sculpt_vcol, m.orco, m.tan_orco, m.sculpt_overlays, m.edit_uv]

/-- Every field holds a value of its declared width. -/
def DRW_MeshCDMask.wf (m : DRW_MeshCDMask) : Prop :=
  m.uv < 2 ^ 8 ∧ m.tan < 2 ^ 8 ∧ m.vcol < 2 ^ 8 ∧ m.sculpt_vcol < 2 ^ 8 ∧
  m.orco < 2 ^ 1 ∧ m.tan_orco < 2 ^ 1 ∧ m.sculpt_overlays < 2 ^ 1 ∧ m.edit_uv < 2 ^ 1

instance (m : DRW_MeshCDMask) : Decidable m.wf := by
  unfold DRW_MeshCDMask.wf
  infer_instance

/-- Allocation of bit-fields of one declared type in declaration order, from
bit position `pos` on: a field goes right after the previous one unless it
would cross a boundary of the `unit`-bit storage unit, in which case it
starts the next unit.  Returns the bit offset of every field. -/
def bitfield_offsets (unit : Nat) : Nat → List Nat → List Nat
  | _, [] => []
  | pos, w :: ws =>
    let start := if pos % unit + w ≤ unit then pos else (pos / unit + 1) * unit
    start :: bitfield_offsets unit (start + w) ws

/-- The number of bits of the storage units the allocation of
`bitfield_offsets` touches (whole units). -/
def bitfield_storage_bits (unit : Nat) : Nat → List Nat → Nat
  | pos, [] => (pos + unit - 1) / unit * unit
  | pos, w :: ws =>
    let start := if pos % unit + w ≤ unit then pos else (pos / unit + 1) * unit
    bitfield_storage_bits unit (start + w) ws

/-- The bit offsets of the eight fields: `uint32_t` bit-fields, 32-bit units. -/
def DRW_MeshCDMask.offsets : List Nat :=
  bitfield_offsets 32 0 DRW_MeshCDMask.widths

/-- The struct read as one unsigned word (`*(uint64_t *)&mask`): every field
shifted to its offset, OR-ed together. -/
def DRW_MeshCDMask.word (m : DRW_MeshCDMask) : Nat :=
  (List.zipWith (fun v o => v <<< o) m.fields DRW_MeshCDMask.offsets).foldl (· ||| ·) 0

/-- The bits `[o, o + w)` of a word. -/
def bits_at (x o w : Nat) : Nat := (x >>> o) % 2 ^ w

/-- The struct whose word is `x`: every field read back from its offset. -/
def DRW_MeshCDMask.of_word (x : Nat) : DRW_MeshCDMask where
  uv := bits_at x 0 8
  tan := bits_at x 8 8
  vcol := bits_at x 16 8
  sculpt_vcol := bits_at x 24 8
  orco := bits_at x 32 1
  tan_orco := bits_at x 33 1
  sculpt_overlays := bits_at x 34 1
  edit_uv := bits_at x 35 1

/-- Modelled from the spec: the union of two masks (§4.1, `union(a, b)`:
"bitwise OR, used to fold a new request into the used over time mask"); the
header only refers to it (`mesh_cd_layers_type_*`, line 69).  The two structs
are read as words, OR-ed, and the result is the struct with that word. -/
def mesh_cd_layers_type_merge (a b : DRW_MeshCDMask) : DRW_MeshCDMask :=
  DRW_MeshCDMask.of_word (a.word ||| b.word)

/-- The mask with every field `0`: nothing used yet. -/
def DRW_MeshCDMask.empty : DRW_MeshCDMask := ⟨0, 0, 0, 0, 0, 0, 0, 0⟩

/-- A request for the first UV layer only. -/
def cd_request_uv : DRW_MeshCDMask := ⟨1, 0, 0, 0, 0, 0, 0, 0⟩

/-- A request for the first UV layer and the first vertex-color layer. -/
def cd_request_uv_vcol : DRW_MeshCDMask := ⟨1, 0, 1, 0, 0, 0, 0, 0⟩

/-- The field-wise OR of two masks. -/
def DRW_MeshCDMask.or_fields (a b : DRW_MeshCDMask) : DRW_MeshCDMask where
  uv := a.uv ||| b.uv
  tan := a.tan ||| b.tan
  vcol := a.vcol ||| b.vcol
  sculpt_vcol := a.sculpt_vcol ||| b.sculpt_vcol
  orco := a.orco ||| b.orco
  tan_orco := a.tan_orco ||| b.tan_orco
  sculpt_overlays := a.sculpt_overlays ||| b.sculpt_overlays
  edit_uv := a.edit_uv ||| b.edit_uv

/-! ## `DRWBatchFlag` and `MBC_EDITUV` -/

/-- The enumerators of `DRWBatchFlag` (lines 168-197), in declaration order. -/
inductive DRWBatchFlag where
  | MBC_SURFACE
  | MBC_SURFACE_WEIGHTS
  | MBC_EDIT_TRIANGLES
  | MBC_EDIT_VERTICES
  | MBC_EDIT_EDGES
  | MBC_EDIT_VNOR
  | MBC_EDIT_LNOR
  | MBC_EDIT_FACEDOTS
  | MBC_EDIT_MESH_ANALYSIS
  | MBC_EDITUV_FACES_STRETCH_AREA
  | MBC_EDITUV_FACES_STRETCH_ANGLE
  | MBC_EDITUV_FACES
  | MBC_EDITUV_EDGES
  | MBC_EDITUV_VERTS
  | MBC_EDITUV_FACEDOTS
  | MBC_EDIT_SELECTION_VERTS
  | MBC_EDIT_SELECTION_EDGES
  | MBC_EDIT_SELECTION_FACES
  | MBC_EDIT_SELECTION_FACEDOTS
  | MBC_ALL_VERTS
  | MBC_ALL_EDGES
  | MBC_LOOSE_EDGES
  | MBC_EDGE_DETECTION
  | MBC_WIRE_EDGES
  | MBC_WIRE_LOOPS
  | MBC_WIRE_LOOPS_UVS
  | MBC_SKIN_ROOTS
  | MBC_SCULPT_OVERLAYS
deriving DecidableEq, Repr

open DRWBatchFlag

/-- The shift count of every enumerator, as written in the header:
`MBC_SURFACE = (1 << 0)`, ..., `MBC_SCULPT_OVERLAYS = (1 << 27)`. -/
def DRWBatchFlag.bit_index : DRWBatchFlag → Nat
  | MBC_SURFACE => 0
  | MBC_SURFACE_WEIGHTS => 1
  | MBC_EDIT_TRIANGLES => 2
  | MBC_EDIT_VERTICES => 3
  | MBC_EDIT_EDGES => 4
  | MBC_EDIT_VNOR => 5
  | MBC_EDIT_LNOR => 6
  | MBC_EDIT_FACEDOTS => 7
  | MBC_EDIT_MESH_ANALYSIS => 8
  | MBC_EDITUV_FACES_STRETCH_AREA => 9
  | MBC_EDITUV_FACES_STRETCH_ANGLE => 10
  | MBC_EDITUV_FACES => 11
  | MBC_EDITUV_EDGES => 12
  | MBC_EDITUV_VERTS => 13
  | MBC_EDITUV_FACEDOTS => 14
  | MBC_EDIT_SELECTION_VERTS => 15
  | MBC_EDIT_SELECTION_EDGES => 16
  | MBC_EDIT_SELECTION_FACES => 17
  | MBC_EDIT_SELECTION_FACEDOTS => 18
  | MBC_ALL_VERTS => 19
  | MBC_ALL_EDGES => 20
  | MBC_LOOSE_EDGES => 21
  | MBC_EDGE_DETECTION => 22
  | MBC_WIRE_EDGES => 23
  | MBC_WIRE_LOOPS => 24
  | MBC_WIRE_LOOPS_UVS => 25
  | MBC_SKIN_ROOTS => 26
  | MBC_SCULPT_OVERLAYS => 27

/-- The value of an enumerator: `(1 << i)`. -/
def DRWBatchFlag.val (f : DRWBatchFlag) : Nat := 1 <<< f.bit_index

/-- Every enumerator of `DRWBatchFlag`, in declaration order. -/
def DRWBatchFlag.all : List DRWBatchFlag :=
  [MBC_SURFACE, MBC_SURFACE_WEIGHTS, MBC_EDIT_TRIANGLES, MBC_EDIT_VERTICES, MBC_EDIT_EDGES,
   MBC_EDIT_VNOR, MBC_EDIT_LNOR, MBC_EDIT_FACEDOTS, MBC_EDIT_MESH_ANALYSIS,
   MBC_EDITUV_FACES_STRETCH_AREA, MBC_EDITUV_FACES_STRETCH_ANGLE, MBC_EDITUV_FACES,
   MBC_EDITUV_EDGES, MBC_EDITUV_VERTS, MBC_EDITUV_FACEDOTS, MBC_EDIT_SELECTION_VERTS,
   MBC_EDIT_SELECTION_EDGES, MBC_EDIT_SELECTION_FACES, MBC_EDIT_SELECTION_FACEDOTS,
   MBC_ALL_VERTS, MBC_ALL_EDGES, MBC_LOOSE_EDGES, MBC_EDGE_DETECTION, MBC_WIRE_EDGES,
   MBC_WIRE_LOOPS, MBC_WIRE_LOOPS_UVS, MBC_SKIN_ROOTS, MBC_SCULPT_OVERLAYS]

/-- A `batch_requested` / `batch_ready` value: the flags of a collection of
batch kinds OR-ed together (`mask |= flag`, from `0`). -/
def batch_mask (kinds : List DRWBatchFlag) : Nat :=
  kinds.foldl (fun mask f => mask ||| f.val) 0

/-- The macro `MBC_EDITUV` (lines 199-201). -/
def MBC_EDITUV : Nat :=
  MBC_EDITUV_FACES_STRETCH_AREA.val ||| MBC_EDITUV_FACES_STRETCH_ANGLE.val |||
    MBC_EDITUV_FACES.val ||| MBC_EDITUV_EDGES.val ||| MBC_EDITUV_VERTS.val |||
    MBC_EDITUV_FACEDOTS.val ||| MBC_WIRE_LOOPS_UVS.val

/-- The operands of the macro `MBC_EDITUV`. -/
def MBC_EDITUV_kinds : List DRWBatchFlag :=
  [MBC_EDITUV_FACES_STRETCH_AREA, MBC_EDITUV_FACES_STRETCH_ANGLE, MBC_EDITUV_FACES,
   MBC_EDITUV_EDGES, MBC_EDITUV_VERTS, MBC_EDITUV_FACEDOTS, MBC_WIRE_LOOPS_UVS]

/-- The C operator `~` on a 32-bit value (the enum `DRWBatchFlag` is 32 bits
wide): every one of the 32 bits flipped. -/
def bit_not32 (x : Nat) : Nat := 2 ^ 32 - 1 - x % 2 ^ 32

/-! ## `MeshBatchCache.batch` and `MBC_BATCH_LEN` -/

/-- The members of the struct `MeshBatchCache.batch` (lines 217-251), in
declaration order; every member is one `GPUBatch *`. -/
inductive MeshBatchCache_batch where
  | surface
  | surface_weights
  | edit_triangles
  | edit_vertices
  | edit_edges
  | edit_vnor
  | edit_lnor
  | edit_fdots
  | edit_mesh_analysis
  | edit_skin_roots
  | edituv_faces_stretch_area
  | edituv_faces_stretch_angle
  | edituv_faces
  | edituv_edges
  | edituv_verts
  | edituv_fdots
  | edit_selection_verts
  | edit_selection_edges
  | edit_selection_faces
  | edit_selection_fdots
  | all_verts
  | all_edges
  | loose_edges
  | edge_detection
  | wire_edges
  | wire_loops
  | wire_loops_uvs
  | sculpt_overlays
deriving DecidableEq, Repr

/-- Every member of `MeshBatchCache.batch`, in declaration order. -/
def MeshBatchCache_batch.all : List MeshBatchCache_batch :=
  [.surface, .surface_weights, .edit_triangles, .edit_vertices, .edit_edges, .edit_vnor,
   .edit_lnor, .edit_fdots, .edit_mesh_analysis, .edit_skin_roots,
   .edituv_faces_stretch_area, .edituv_faces_stretch_angle, .edituv_faces, .edituv_edges,
   .edituv_verts, .edituv_fdots, .edit_selection_verts, .edit_selection_edges,
   .edit_selection_faces, .edit_selection_fdots, .all_verts, .all_edges, .loose_edges,
   .edge_detection, .wire_edges, .wire_loops, .wire_loops_uvs, .sculpt_overlays]

/-- The position of a member in the struct, counted in pointer-sized slots:
the index `i` with `((GPUBatch **)&cache->batch)[i]` the member. -/
def MeshBatchCache_batch.slot_index (h : MeshBatchCache_batch) : Nat :=
  MeshBatchCache_batch.all.indexOf h

/-- The macro `MBC_BATCH_LEN` (line 286), `sizeof(batch) / sizeof(void *)`,
for a pointer of `ptr_size` bytes: the struct holds pointers only. -/
def MBC_BATCH_LEN (ptr_size : Nat) : Nat :=
  MeshBatchCache_batch.all.length * ptr_size / ptr_size

/-- The member of `MeshBatchCache.batch` a flag is named after. -/
def DRWBatchFlag.handle : DRWBatchFlag → MeshBatchCache_batch
  | MBC_SURFACE => .surface
  | MBC_SURFACE_WEIGHTS => .surface_weights
  | MBC_EDIT_TRIANGLES => .edit_triangles
  | MBC_EDIT_VERTICES => .edit_vertices
  | MBC_EDIT_EDGES => .edit_edges
  | MBC_EDIT_VNOR => .edit_vnor
  | MBC_EDIT_LNOR => .edit_lnor
  | MBC_EDIT_FACEDOTS => .edit_fdots
  | MBC_EDIT_MESH_ANALYSIS => .edit_mesh_analysis
  | MBC_EDITUV_FACES_STRETCH_AREA => .edituv_faces_stretch_area
  | MBC_EDITUV_FACES_STRETCH_ANGLE => .edituv_faces_stretch_angle
  | MBC_EDITUV_FACES => .edituv_faces
  | MBC_EDITUV_EDGES => .edituv_edges
  | MBC_EDITUV_VERTS => .edituv_verts
  | MBC_EDITUV_FACEDOTS => .edituv_fdots
  | MBC_EDIT_SELECTION_VERTS => .edit_selection_verts
  | MBC_EDIT_SELECTION_EDGES => .edit_selection_edges
  | MBC_EDIT_SELECTION_FACES => .edit_selection_faces
  | MBC_EDIT_SELECTION_FACEDOTS => .edit_selection_fdots
  | MBC_ALL_VERTS => .all_verts
  | MBC_ALL_EDGES => .all_edges
  | MBC_LOOSE_EDGES => .loose_edges
  | MBC_EDGE_DETECTION => .edge_detection
  | MBC_WIRE_EDGES => .wire_edges
  | MBC_WIRE_LOOPS => .wire_loops
  | MBC_WIRE_LOOPS_UVS => .wire_loops_uvs
  | MBC_SKIN_ROOTS => .edit_skin_roots
  | MBC_SCULPT_OVERLAYS => .sculpt_overlays

/-- The kinds of batch handles the description of the Batch Cache tells apart. -/
inductive BatchGroup where
  | surface
  | edit_entity
  | edit_normals
  | edit_mesh_analysis
  | edit_skin_roots
  | edit_uv
  | edit_selection
  | common
deriving DecidableEq, Repr

/-- Every `BatchGroup`. -/
def BatchGroup.all : List BatchGroup :=
  [.surface, .edit_entity, .edit_normals, .edit_mesh_analysis, .edit_skin_roots, .edit_uv,
   .edit_selection, .common]

/-- The group of a member of `MeshBatchCache.batch`, after the comments of the
struct (`Surfaces / Render`, `Edit mode`, `Edit UVs`, `Edit selection`,
`Common display / Other`); the members under `Edit mode` are told apart by
name: normals (`edit_vnor`, `edit_lnor`), mesh analysis, skin roots, and the
mesh entities (triangles, vertices, edges, face dots). -/
def MeshBatchCache_batch.group : MeshBatchCache_batch → BatchGroup
  | .surface => .surface
  | .surface_weights => .surface
  | .edit_triangles => .edit_entity
  | .edit_vertices => .edit_entity
  | .edit_edges => .edit_entity
  | .edit_vnor => .edit_normals
  | .edit_lnor => .edit_normals
  | .edit_fdots => .edit_entity
  | .edit_mesh_analysis => .edit_mesh_analysis
  | .edit_skin_roots => .edit_skin_roots
  | .edituv_faces_stretch_area => .edit_uv
  | .edituv_faces_stretch_angle => .edit_uv
  | .edituv_faces => .edit_uv
  | .edituv_edges => .edit_uv
  | .edituv_verts => .edit_uv
  | .edituv_fdots => .edit_uv
  | .edit_selection_verts => .edit_selection
  | .edit_selection_edges => .edit_selection
  | .edit_selection_faces => .edit_selection
  | .edit_selection_fdots => .edit_selection
  | .all_verts => .common
  | .all_edges => .common
  | .loose_edges => .common
  | .edge_detection => .common
  | .wire_edges => .common
  | .wire_loops => .common
  | .wire_loops_uvs => .common
  | .sculpt_overlays => .common

/-- The members of `MeshBatchCache.batch` of one group, in declaration order. -/
def batch_group_members (g : BatchGroup) : List MeshBatchCache_batch :=
  MeshBatchCache_batch.all.filter (fun h => decide (h.group = g))

/-- The number of handles of each group as the description of the Batch Cache
gives it: "surface, surface-weights, five edit-mode entity batches, normals
x2, mesh-analysis overlay, skin-roots, six UV-edit batches, four selection
batches, and six common batches". -/
def described_group_count : BatchGroup → Nat
  | .surface => 2
  | .edit_entity => 5
  | .edit_normals => 2
  | .edit_mesh_analysis => 1
  | .edit_skin_roots => 1
  | .edit_uv => 6
  | .edit_selection => 4
  | .common => 6

/-! ## `FOREACH_MESH_BUFFER_CACHE` -/

/-- The addresses `&batch_cache->final`, `&batch_cache->cage` and
`&batch_cache->uv_cage` of the three `MeshBufferCache` members of a
`MeshBatchCache` (line 211): three different objects. -/
inductive MeshBufferCacheRef where
  | final
  | cage
  | uv_cage
deriving DecidableEq, Repr

/-- The initialiser of `FOREACH_MESH_BUFFER_CACHE`: `mbc = &batch_cache->final`.
A `MeshBufferCache *` is `none` for `NULL`. -/
def foreach_mesh_buffer_cache_init : Option MeshBufferCacheRef :=
  some .final

/-- The condition of `FOREACH_MESH_BUFFER_CACHE`: `mbc == &batch_cache->final ||
mbc == &batch_cache->cage || mbc == &batch_cache->uv_cage`. -/
def foreach_mesh_buffer_cache_cond (mbc : Option MeshBufferCacheRef) : Bool :=
  mbc == some .final || mbc == some .cage || mbc == some .uv_cage

/-- The step of `FOREACH_MESH_BUFFER_CACHE`: `mbc = (mbc == &batch_cache->final) ?
&batch_cache->cage : ((mbc == &batch_cache->cage) ? &batch_cache->uv_cage : NULL)`. -/
def foreach_mesh_buffer_cache_next (mbc : Option MeshBufferCacheRef) :
    Option MeshBufferCacheRef :=
  if mbc == some .final then some .cage
  else if mbc == some .cage then some .uv_cage
  else none

/-- The `for` loop of `FOREACH_MESH_BUFFER_CACHE` from the value `mbc` on, with a
body that leaves `mbc` alone: the values of `mbc` the body runs with, in order.
Every evaluation of the condition takes one unit of `fuel`; `none` when the
fuel runs out before the condition fails. -/
def foreach_mesh_buffer_cache_from :
    Nat → Option MeshBufferCacheRef → Option (List (Option MeshBufferCacheRef))
  | 0, _ => none
  | fuel + 1, mbc =>
    if foreach_mesh_buffer_cache_cond mbc then
      (foreach_mesh_buffer_cache_from fuel (foreach_mesh_buffer_cache_next mbc)).map
        (fun visited => mbc :: visited)
    else some []

/-- The whole loop `FOREACH_MESH_BUFFER_CACHE (batch_cache, mbc) { ... }`. -/
def FOREACH_MESH_BUFFER_CACHE (fuel : Nat) : Option (List (Option MeshBufferCacheRef)) :=
  foreach_mesh_buffer_cache_from fuel foreach_mesh_buffer_cache_init

/-! ## The layout of the "extend" vertex buffers -/

/-- The struct `MeshBufferExtractionCache` (lines 161-166): the numbers of loose
edges and loose vertices and the arrays `ledges` and `lverts` of their
indices in the mesh.  The counts are never negative and are natural
numbers here. -/
structure MeshBufferExtractionCache where
  edge_loose_len : Nat
  vert_loose_len : Nat
  lverts : List Nat
  ledges : List Nat
deriving DecidableEq, Repr

/-- The arrays of a `MeshBufferExtractionCache` have the lengths the counts
give: `ledges` is `[edge_loose_len]` and `lverts` is `[vert_loose_len]`. -/
def MeshBufferExtractionCache.wf (ec : MeshBufferExtractionCache) : Prop :=
  ec.ledges.length = ec.edge_loose_len ∧ ec.lverts.length = ec.vert_loose_len

instance (ec : MeshBufferExtractionCache) : Decidable ec.wf := by
  unfold MeshBufferExtractionCache.wf
  infer_instance

/-- What one element of an "extend" vertex buffer is filled from: the face-loop
`l`, the end `corner` (0 or 1) of the loose edge `e`, or the loose vertex `v`. -/
inductive ExtendEntry where
  | loop (l : Nat)
  | ledge (e : Nat) (corner : Nat)
  | lvert (v : Nat)
deriving DecidableEq, Repr

/-- Modelled from the spec: the contents of an "extend" vertex buffer
(`pos_nor`, `lnor`, `edge_fac`, `weights`, `edit_data`, `vert_idx`, `edge_idx`);
the header gives the order only (lines 102-105, "loops + loose_edges*2 +
loose_verts"), the code filling the buffers is not part of it.  After §3 and
§4.4: "contiguous data for all face-loops first, then loose edges (each
contributing 2 entries), then loose vertices (1 entry each), in that fixed
order", the loose elements in the order of the lists of the Extraction
Memo. -/
def extend_vbo (loop_len : Nat) (ec : MeshBufferExtractionCache) : List ExtendEntry :=
  (List.range loop_len).map ExtendEntry.loop ++
    ec.ledges.flatMap (fun e => [ExtendEntry.ledge e 0, ExtendEntry.ledge e 1]) ++
    ec.lverts.map ExtendEntry.lvert

/-! ## The request dispatcher -/

/-- The members of `MeshBatchCache` (lines 210-284) the request dispatcher
works on.  `buffers` are the slots of the three Buffer Sets `final`, `cage`
and `uv_cage` (`none`: not allocated), `memo` the three
`*_extraction_cache` members (`none`: invalidated), `batch` the finished batch
handles by batch kind, each with the buffer slots it references, `batch_ready`
the ready mask and `cd_used_over_time` the attribute mask used over time.  The
type `σ` names the buffer slots and `β` is the content of a buffer. -/
structure MeshBatchCache (σ β : Type) where
  buffers : σ → Option β
  memo : MeshBufferCacheRef → Option MeshBufferExtractionCache
  batch : DRWBatchFlag → Option (List σ)
  batch_ready : Nat
  cd_used_over_time : DRW_MeshCDMask

/-- The collaborators of the request dispatcher, which §1 of the description
keeps out of scope: the Buffer Set a slot belongs to, the fixed mapping from
a batch kind to the buffer slots it depends on, the attribute mask a mesh
needs, the topology scan for loose geometry, and the extraction of one buffer
(`none` when the mesh has no data for it). -/
structure Dispatcher (σ β : Type) where
  variant : σ → MeshBufferCacheRef
  deps : DRWBatchFlag → List σ
  compute_needed : Mesh → DRW_MeshCDMask
  scan_loose : Mesh → MeshBufferCacheRef → MeshBufferExtractionCache
  extract : Mesh → MeshBufferExtractionCache → DRW_MeshCDMask → σ → Option β

/-- The extraction work of one call of the dispatcher: the Buffer Sets whose
loose geometry was scanned and the buffer slots that were extracted. -/
structure ExtractionWork (σ : Type) where
  scanned : List MeshBufferCacheRef
  extracted : List σ
deriving DecidableEq, Repr

/-- The requested batch kinds that are not already in `ready` (§4.3, step 2). -/
def pending_kinds (batch_ready requested : Nat) : List DRWBatchFlag :=
  DRWBatchFlag.all.filter
    (fun f => decide (requested &&& f.val ≠ 0) && decide (batch_ready &&& f.val = 0))

/-- Modelled from the spec: steps 2 to 6 of the Request Dispatcher of §4.3 for
the batch kinds `pending`, with the attribute mask `cd` of step 1; the body of
`mesh_buffer_cache_create_requested` is not part of the header (lines 290-304
declare it).  The buffer dependencies of the pending kinds are resolved and
deduplicated, buffers already present are skipped; for a Buffer Set with a
buffer to extract the Extraction Memo is reused, or scanned and refreshed when
it is invalid; the buffers are extracted; the batch handles of the pending
kinds are assembled (a kind whose dependencies are all absent gets no handle)
and the bits of the pending kinds are set in `ready`. -/
def ensure_batches_pending {σ β : Type} [DecidableEq σ] (D : Dispatcher σ β)
    (cache : MeshBatchCache σ β) (me : Mesh) (cd : DRW_MeshCDMask)
    (pending : List DRWBatchFlag) : MeshBatchCache σ β × ExtractionWork σ :=
  let wanted := (pending.flatMap D.deps).dedup
  let to_extract := wanted.filter (fun slot => (cache.buffers slot).isNone)
  let touched := fun v => to_extract.any (fun slot => decide (D.variant slot = v))
  let scanned := [MeshBufferCacheRef.final, MeshBufferCacheRef.cage,
    MeshBufferCacheRef.uv_cage].filter (fun v => touched v && (cache.memo v).isNone)
  let loose := fun v => (cache.memo v).getD (D.scan_loose me v)
  let memo := fun v => if touched v then some (loose v) else cache.memo v
  let buffers := fun slot =>
    if slot ∈ to_extract then D.extract me (loose (D.variant slot)) cd slot
    else cache.buffers slot
  let batch := fun f =>
    if f ∈ pending then
      if (D.deps f).all (fun slot => (buffers slot).isNone) then none else some (D.deps f)
    else cache.batch f
  ({ buffers := buffers
     memo := memo
     batch := batch
     batch_ready := cache.batch_ready ||| batch_mask pending
     cd_used_over_time := cd },
   { scanned := scanned, extracted := to_extract })

/-- Modelled from the spec: the Request Dispatcher `ensure_batches` of §4.3
(`mesh_buffer_cache_create_requested` is declared by the header, its body is
not part of it).  Step 1 folds the needed attribute mask into the mask used
over time (union); steps 2 to 6 are `ensure_batches_pending` for the requested
kinds not already in `ready`.  Returns the cache and the extraction work. -/
def ensure_batches {σ β : Type} [DecidableEq σ] (D : Dispatcher σ β)
    (cache : MeshBatchCache σ β) (requested : Nat) (me : Mesh) :
    MeshBatchCache σ β × ExtractionWork σ :=
  ensure_batches_pending D cache me
    (mesh_cd_layers_type_merge cache.cd_used_over_time (D.compute_needed me))
    (pending_kinds cache.batch_ready requested)

/-- A dispatcher for a check: the slots are numbers, all of the Buffer Set
`final`; a batch kind depends on slot 0 and on the slot of its bit index plus
one; a mesh needs the first UV layer; and the buffer of slot `n` is `n` for
an even `n` and absent for an odd one. -/
def sample_dispatcher : Dispatcher Nat Nat where
  variant := fun _ => MeshBufferCacheRef.final
  deps := fun f => [0, f.bit_index + 1]
  compute_needed := fun _ => cd_request_uv
  scan_loose := fun _ _ => ⟨0, 0, [], []⟩
  extract := fun _ _ _ slot => if slot % 2 = 0 then some slot else none

/-- A cache with nothing allocated, nothing ready and no attribute used. -/
def empty_cache : MeshBatchCache Nat Nat where
  buffers := fun _ => none
  memo := fun _ => none
  batch := fun _ => none
  batch_ready := 0
  cd_used_over_time := DRW_MeshCDMask.empty

/-! ## Theorems -/

theorem MAX2_eq_max (a b : Int) : MAX2 a b = max a b := by
  unfold MAX2
  split <;> omega

/-- C1: `mesh_render_mat_len_get` is `max 1 totcol` of the displayed mesh:
with an edit-mesh whose `mesh_eval_final` is present the result is
`max 1 final.totcol` whatever `me.totcol` is; without an edit-mesh, or with an
edit-mesh without `mesh_eval_final`, it is `max 1 me.totcol`; and the result
is never below 1. -/
theorem mesh_render_mat_len_get_spec (totcol : Int) (final : Mesh) :
    mesh_render_mat_len_get (.mk totcol (some (.mk (some final)))) = max 1 final.totcol ∧
    mesh_render_mat_len_get (.mk totcol none) = max 1 totcol ∧
    mesh_render_mat_len_get (.mk totcol (some (.mk none))) = max 1 totcol ∧
    (∀ me : Mesh, mesh_render_mat_len_get me = max 1 (displayed_mesh me).totcol) ∧
    (∀ me : Mesh, 1 ≤ mesh_render_mat_len_get me) := by
  have hall : ∀ me : Mesh, mesh_render_mat_len_get me = max 1 (displayed_mesh me).totcol := by
    intro me
    rcases me with ⟨t, _ | ⟨_ | f⟩⟩ <;>
      simp [mesh_render_mat_len_get, displayed_mesh, Mesh.edit_mesh,
        BMEditMesh.mesh_eval_final, Mesh.totcol, MAX2_eq_max]
  refine ⟨?_, ?_, ?_, hall, ?_⟩
  · simp [mesh_render_mat_len_get, Mesh.edit_mesh, BMEditMesh.mesh_eval_final, MAX2_eq_max]
  · simp [mesh_render_mat_len_get, Mesh.edit_mesh, Mesh.totcol, MAX2_eq_max]
  · simp [mesh_render_mat_len_get, Mesh.edit_mesh, BMEditMesh.mesh_eval_final, Mesh.totcol,
      MAX2_eq_max]
  · intro me
    rw [hall]
    exact le_max_left _ _

/-! ### `DRW_MeshCDMask` -/

theorem or_shiftLeft_eq_add {lo v o : Nat} (h : lo < 2 ^ o) :
    lo ||| v <<< o = lo + v * 2 ^ o := by
  rw [Nat.or_comm, Nat.shiftLeft_eq, Nat.mul_comm v, ← Nat.mul_add_lt_is_or h]
  omega

theorem shiftLeft_or (x y k : Nat) : (x ||| y) <<< k = x <<< k ||| y <<< k := by
  apply Nat.eq_of_testBit_eq
  intro i
  simp only [Nat.testBit_shiftLeft, Nat.testBit_or]
  cases decide (i ≥ k) <;> simp

theorem DRW_MeshCDMask.offsets_eq :
    DRW_MeshCDMask.offsets = [0, 8, 16, 24, 32, 33, 34, 35] := by
  decide

theorem DRW_MeshCDMask.word_eq_or (m : DRW_MeshCDMask) :
    m.word = m.uv ||| m.tan <<< 8 ||| m.vcol <<< 16 ||| m.sculpt_vcol <<< 24 |||
      m.orco <<< 32 ||| m.tan_orco <<< 33 ||| m.sculpt_overlays <<< 34 ||| m.edit_uv <<< 35 := by
  simp [DRW_MeshCDMask.word, DRW_MeshCDMask.offsets_eq, DRW_MeshCDMask.fields]

theorem DRW_MeshCDMask.word_eq_add (m : DRW_MeshCDMask) (h : m.wf) :
    m.word = m.uv + m.tan * 2 ^ 8 + m.vcol * 2 ^ 16 + m.sculpt_vcol * 2 ^ 24 +
      m.orco * 2 ^ 32 + m.tan_orco * 2 ^ 33 + m.sculpt_overlays * 2 ^ 34 +
      m.edit_uv * 2 ^ 35 := by
  obtain ⟨h1, h2, h3, h4, h5, h6, h7, h8⟩ := h
  rw [DRW_MeshCDMask.word_eq_or]
  rw [or_shiftLeft_eq_add (o := 8) h1]
  rw [or_shiftLeft_eq_add (o := 16) (by omega)]
  rw [or_shiftLeft_eq_add (o := 24) (by omega)]
  rw [or_shiftLeft_eq_add (o := 32) (by omega)]
  rw [or_shiftLeft_eq_add (o := 33) (by omega)]
  rw [or_shiftLeft_eq_add (o := 34) (by omega)]
  rw [or_shiftLeft_eq_add (o := 35) (by omega)]

theorem DRW_MeshCDMask.of_word_word (m : DRW_MeshCDMask) (h : m.wf) :
    DRW_MeshCDMask.of_word m.word = m := by
  have hw := DRW_MeshCDMask.word_eq_add m h
  obtain ⟨h1, h2, h3, h4, h5, h6, h7, h8⟩ := h
  rcases m with ⟨a, b, c, d, e, f, g, k⟩
  simp only [DRW_MeshCDMask.of_word, bits_at, Nat.shiftRight_eq_div_pow, DRW_MeshCDMask.mk.injEq]
  simp only at hw h1 h2 h3 h4 h5 h6 h7 h8
  rw [hw]
  refine ⟨?_, ?_, ?_, ?_, ?_, ?_, ?_, ?_⟩ <;> omega

theorem DRW_MeshCDMask.or_fields_wf {a b : DRW_MeshCDMask} (ha : a.wf) (hb : b.wf) :
    (a.or_fields b).wf := by
  obtain ⟨a1, a2, a3, a4, a5, a6, a7, a8⟩ := ha
  obtain ⟨b1, b2, b3, b4, b5, b6, b7, b8⟩ := hb
  exact ⟨Nat.or_lt_two_pow a1 b1, Nat.or_lt_two_pow a2 b2, Nat.or_lt_two_pow a3 b3,
    Nat.or_lt_two_pow a4 b4, Nat.or_lt_two_pow a5 b5, Nat.or_lt_two_pow a6 b6,
    Nat.or_lt_two_pow a7 b7, Nat.or_lt_two_pow a8 b8⟩

theorem DRW_MeshCDMask.word_or_word (a b : DRW_MeshCDMask) :
    a.word ||| b.word = (a.or_fields b).word := by
  rw [DRW_MeshCDMask.word_eq_or a, DRW_MeshCDMask.word_eq_or b,
    DRW_MeshCDMask.word_eq_or (a.or_fields b)]
  show _ = (a.uv ||| b.uv) ||| (a.tan ||| b.tan) <<< 8 ||| (a.vcol ||| b.vcol) <<< 16 |||
    (a.sculpt_vcol ||| b.sculpt_vcol) <<< 24 ||| (a.orco ||| b.orco) <<< 32 |||
    (a.tan_orco ||| b.tan_orco) <<< 33 ||| (a.sculpt_overlays ||| b.sculpt_overlays) <<< 34 |||
    (a.edit_uv ||| b.edit_uv) <<< 35
  rw [shiftLeft_or, shiftLeft_or, shiftLeft_or, shiftLeft_or, shiftLeft_or, shiftLeft_or,
    shiftLeft_or]
  generalize a.uv = a1, a.tan <<< 8 = a2, a.vcol <<< 16 = a3, a.sculpt_vcol <<< 24 = a4,
    a.orco <<< 32 = a5, a.tan_orco <<< 33 = a6, a.sculpt_overlays <<< 34 = a7,
    a.edit_uv <<< 35 = a8
  generalize b.uv = b1, b.tan <<< 8 = b2, b.vcol <<< 16 = b3, b.sculpt_vcol <<< 24 = b4,
    b.orco <<< 32 = b5, b.tan_orco <<< 33 = b6, b.sculpt_overlays <<< 34 = b7,
    b.edit_uv <<< 35 = b8
  ac_rfl

theorem mesh_cd_layers_type_merge_eq {a b : DRW_MeshCDMask} (ha : a.wf) (hb : b.wf) :
    mesh_cd_layers_type_merge a b = a.or_fields b := by
  unfold mesh_cd_layers_type_merge
  rw [DRW_MeshCDMask.word_or_word]
  exact DRW_MeshCDMask.of_word_word _ (DRW_MeshCDMask.or_fields_wf ha hb)

theorem or_or_self_left (x y : Nat) : x ||| y ||| x = x ||| y := by
  rw [Nat.or_comm x y, Nat.or_assoc, Nat.or_self]

theorem DRW_MeshCDMask.word_lt (m : DRW_MeshCDMask) (h : m.wf) : m.word < 2 ^ 36 := by
  rw [DRW_MeshCDMask.word_eq_add m h]
  obtain ⟨h1, h2, h3, h4, h5, h6, h7, h8⟩ := h
  omega

/-- C2: the eight bit-fields of `DRW_MeshCDMask` have total width 36; allocated
in declaration order in 32-bit units they sit at bit offsets 0, 8, 16, 24, 32,
33, 34, 35 and occupy 64 bits of storage; the word of a mask is below `2 ^ 64`,
reading the fields back from the word gives the mask, and two masks have the
same word if and only if all eight fields are equal. -/
theorem DRW_MeshCDMask_fits_uint64 (a b : DRW_MeshCDMask) (ha : a.wf) (hb : b.wf) :
    DRW_MeshCDMask.widths.length = 8 ∧
    DRW_MeshCDMask.widths.sum = 36 ∧
    DRW_MeshCDMask.offsets = [0, 8, 16, 24, 32, 33, 34, 35] ∧
    bitfield_storage_bits 32 0 DRW_MeshCDMask.widths = 64 ∧
    a.word < 2 ^ 64 ∧
    DRW_MeshCDMask.of_word a.word = a ∧
    (a.word = b.word ↔
      a.uv = b.uv ∧ a.tan = b.tan ∧ a.vcol = b.vcol ∧ a.sculpt_vcol = b.sculpt_vcol ∧
      a.orco = b.orco ∧ a.tan_orco = b.tan_orco ∧ a.sculpt_overlays = b.sculpt_overlays ∧
      a.edit_uv = b.edit_uv) := by
  refine ⟨by decide, by decide, DRW_MeshCDMask.offsets_eq, by decide, ?_,
    DRW_MeshCDMask.of_word_word a ha, ?_⟩
  · have := DRW_MeshCDMask.word_lt a ha
    omega
  · constructor
    · intro h
      have h2 : a = b := by
        rw [← DRW_MeshCDMask.of_word_word a ha, ← DRW_MeshCDMask.of_word_word b hb, h]
      subst h2
      simp
    · rintro ⟨h1, h2, h3, h4, h5, h6, h7, h8⟩
      rcases a with ⟨a1, a2, a3, a4, a5, a6, a7, a8⟩
      rcases b with ⟨b1, b2, b3, b4, b5, b6, b7, b8⟩
      simp only at h1 h2 h3 h4 h5 h6 h7 h8
      subst h1 h2 h3 h4 h5 h6 h7 h8
      rfl

/-- Witness of C2: the masks `(255, 1, 2, 3, 1, 0, 1, 1)` and
`(255, 1, 2, 3, 1, 0, 1, 0)` are well formed, they differ in `edit_uv` only and
their words differ. -/
theorem DRW_MeshCDMask_fits_uint64_witness :
    (⟨255, 1, 2, 3, 1, 0, 1, 1⟩ : DRW_MeshCDMask).wf ∧
    (⟨255, 1, 2, 3, 1, 0, 1, 0⟩ : DRW_MeshCDMask).wf ∧
    (⟨255, 1, 2, 3, 1, 0, 1, 1⟩ : DRW_MeshCDMask).word < 2 ^ 64 ∧
    (⟨255, 1, 2, 3, 1, 0, 1, 1⟩ : DRW_MeshCDMask).word ≠
      (⟨255, 1, 2, 3, 1, 0, 1, 0⟩ : DRW_MeshCDMask).word := by
  have h := DRW_MeshCDMask_fits_uint64 ⟨255, 1, 2, 3, 1, 0, 1, 1⟩ ⟨255, 1, 2, 3, 1, 0, 1, 0⟩
    (by decide) (by decide)
  refine ⟨by decide, by decide, h.2.2.2.2.1, ?_⟩
  intro hw
  have := (h.2.2.2.2.2.2.1 hw).2.2.2.2.2.2.2
  simp at this

/-- C3: the union of two masks, the bitwise OR of their words.  Its word is the
OR of the two words, bit by bit; every field of the union is the OR of that
field of `a` and of `b` (nothing crosses into another field) and the union is
well formed; union is commutative and idempotent and absorbs a mask already
folded in.  Folding `{UV}` and then `{UV, vertex color}` into the empty mask
gives `{UV, vertex color}`, and folding `{UV}` again leaves it unchanged. -/
theorem mesh_cd_layers_type_merge_spec (a b : DRW_MeshCDMask) (ha : a.wf) (hb : b.wf) :
    (mesh_cd_layers_type_merge a b).word = a.word ||| b.word ∧
    (∀ i, (mesh_cd_layers_type_merge a b).word.testBit i =
      (a.word.testBit i || b.word.testBit i)) ∧
    (mesh_cd_layers_type_merge a b).wf ∧
    ((mesh_cd_layers_type_merge a b).uv = a.uv ||| b.uv ∧
     (mesh_cd_layers_type_merge a b).tan = a.tan ||| b.tan ∧
     (mesh_cd_layers_type_merge a b).vcol = a.vcol ||| b.vcol ∧
     (mesh_cd_layers_type_merge a b).sculpt_vcol = a.sculpt_vcol ||| b.sculpt_vcol ∧
     (mesh_cd_layers_type_merge a b).orco = a.orco ||| b.orco ∧
     (mesh_cd_layers_type_merge a b).tan_orco = a.tan_orco ||| b.tan_orco ∧
     (mesh_cd_layers_type_merge a b).sculpt_overlays = a.sculpt_overlays ||| b.sculpt_overlays ∧
     (mesh_cd_layers_type_merge a b).edit_uv = a.edit_uv ||| b.edit_uv) ∧
    mesh_cd_layers_type_merge a b = mesh_cd_layers_type_merge b a ∧
    mesh_cd_layers_type_merge a a = a ∧
    mesh_cd_layers_type_merge (mesh_cd_layers_type_merge a b) a =
      mesh_cd_layers_type_merge a b ∧
    mesh_cd_layers_type_merge (mesh_cd_layers_type_merge DRW_MeshCDMask.empty cd_request_uv)
      cd_request_uv_vcol = cd_request_uv_vcol ∧
    mesh_cd_layers_type_merge
      (mesh_cd_layers_type_merge (mesh_cd_layers_type_merge DRW_MeshCDMask.empty cd_request_uv)
        cd_request_uv_vcol) cd_request_uv = cd_request_uv_vcol := by
  have hab := mesh_cd_layers_type_merge_eq ha hb
  have hwf := DRW_MeshCDMask.or_fields_wf ha hb
  have hword : (mesh_cd_layers_type_merge a b).word = a.word ||| b.word := by
    rw [hab, DRW_MeshCDMask.word_or_word]
  refine ⟨hword, ?_, ?_, ?_, ?_, ?_, ?_, by decide, by decide⟩
  · intro i
    rw [hword, Nat.testBit_or]
  · rw [hab]
    exact hwf
  · rw [hab]
    exact ⟨rfl, rfl, rfl, rfl, rfl, rfl, rfl, rfl⟩
  · unfold mesh_cd_layers_type_merge
    rw [Nat.or_comm]
  · rw [mesh_cd_layers_type_merge_eq ha ha]
    rcases a with ⟨a1, a2, a3, a4, a5, a6, a7, a8⟩
    simp [DRW_MeshCDMask.or_fields]
  · rw [hab, mesh_cd_layers_type_merge_eq hwf ha]
    simp [DRW_MeshCDMask.or_fields, or_or_self_left]

/-- Witness of C3: the union of the well-formed masks `(1, 0, 0, 0, 1, 0, 0, 0)`
and `(2, 0, 4, 0, 0, 0, 0, 1)` is `(3, 0, 4, 0, 1, 0, 0, 1)`. -/
theorem mesh_cd_layers_type_merge_spec_witness :
    (⟨1, 0, 0, 0, 1, 0, 0, 0⟩ : DRW_MeshCDMask).wf ∧
    (⟨2, 0, 4, 0, 0, 0, 0, 1⟩ : DRW_MeshCDMask).wf ∧
    (mesh_cd_layers_type_merge ⟨1, 0, 0, 0, 1, 0, 0, 0⟩ ⟨2, 0, 4, 0, 0, 0, 0, 1⟩).wf ∧
    mesh_cd_layers_type_merge ⟨1, 0, 0, 0, 1, 0, 0, 0⟩ ⟨2, 0, 4, 0, 0, 0, 0, 1⟩ =
      ⟨3, 0, 4, 0, 1, 0, 0, 1⟩ :=
  ⟨by decide, by decide,
    (mesh_cd_layers_type_merge_spec ⟨1, 0, 0, 0, 1, 0, 0, 0⟩ ⟨2, 0, 4, 0, 0, 0, 0, 1⟩
      (by decide) (by decide)).2.2.1,
    by decide⟩

/-! ### `DRWBatchFlag` -/

theorem or_eq_zero_iff (x y : Nat) : x ||| y = 0 ↔ x = 0 ∧ y = 0 := by
  constructor
  · intro h
    have hb : ∀ i, (x.testBit i || y.testBit i) = false := by
      intro i
      rw [← Nat.testBit_or, h, Nat.zero_testBit]
    constructor
    · apply Nat.eq_of_testBit_eq
      intro i
      have := hb i
      rw [Nat.zero_testBit]
      cases hx : x.testBit i <;> simp_all
    · apply Nat.eq_of_testBit_eq
      intro i
      have := hb i
      rw [Nat.zero_testBit]
      cases hy : y.testBit i <;> simp_all
  · rintro ⟨rfl, rfl⟩
    rfl

theorem or_and_ne_zero_iff (x y z : Nat) :
    (x ||| y) &&& z ≠ 0 ↔ x &&& z ≠ 0 ∨ y &&& z ≠ 0 := by
  rw [Nat.and_comm, Nat.and_or_distrib_left, Nat.and_comm z x, Nat.and_comm z y, Ne,
    or_eq_zero_iff]
  tauto

theorem DRWBatchFlag.val_and_val_ne_zero (g f : DRWBatchFlag) :
    g.val &&& f.val ≠ 0 ↔ g = f := by
  cases g <;> cases f <;> decide

theorem foldl_or_and_ne_zero (kinds : List DRWBatchFlag) (acc : Nat) (f : DRWBatchFlag) :
    kinds.foldl (fun mask g => mask ||| g.val) acc &&& f.val ≠ 0 ↔
      acc &&& f.val ≠ 0 ∨ f ∈ kinds := by
  induction kinds generalizing acc with
  | nil => simp
  | cons g rest ih =>
    rw [List.foldl_cons, ih, or_and_ne_zero_iff, DRWBatchFlag.val_and_val_ne_zero,
      List.mem_cons]
    constructor
    · rintro ((h | h) | h)
      · exact Or.inl h
      · exact Or.inr (Or.inl h.symm)
      · exact Or.inr (Or.inr h)
    · rintro (h | h | h)
      · exact Or.inl (Or.inl h)
      · exact Or.inl (Or.inr h.symm)
      · exact Or.inr h

/-- C4: `DRWBatchFlag` has exactly 28 enumerators; in declaration order their
values are `1 << 0`, ..., `1 << 27` (`MBC_SURFACE` is bit 0, `MBC_SCULPT_OVERLAYS`
bit 27), so two different flags have bitwise AND 0 and the OR of all flags is
`2 ^ 28 - 1`; and a mask built by OR-ing a collection of batch kinds contains
the bit of a flag exactly when the flag is in the collection. -/
theorem DRWBatchFlag_single_bits :
    DRWBatchFlag.all.length = 28 ∧
    DRWBatchFlag.all.Nodup ∧
    (∀ f : DRWBatchFlag, f ∈ DRWBatchFlag.all) ∧
    DRWBatchFlag.all.map DRWBatchFlag.val = (List.range 28).map (fun i => 1 <<< i) ∧
    MBC_SURFACE.val = 1 <<< 0 ∧ MBC_SCULPT_OVERLAYS.val = 1 <<< 27 ∧
    (∀ f : DRWBatchFlag, f.bit_index < 28 ∧ f.val = 1 <<< f.bit_index ∧
      DRWBatchFlag.all.indexOf f = f.bit_index) ∧
    (∀ f g : DRWBatchFlag, f ≠ g → f.val &&& g.val = 0) ∧
    batch_mask DRWBatchFlag.all = 2 ^ 28 - 1 ∧
    (∀ (kinds : List DRWBatchFlag) (f : DRWBatchFlag),
      f ∈ kinds ↔ batch_mask kinds &&& f.val ≠ 0) := by
  refine ⟨by decide, by decide, ?_, by decide, rfl, rfl, ?_, ?_, by decide, ?_⟩
  · intro f
    cases f <;> decide
  · intro f
    cases f <;> decide
  · intro f g hfg
    by_contra h
    exact hfg ((DRWBatchFlag.val_and_val_ne_zero f g).1 h)
  · intro kinds f
    unfold batch_mask
    rw [foldl_or_and_ne_zero]
    simp

/-! ### `MBC_EDITUV` -/

theorem and_bit_not32_MBC_EDITUV_and (mask x : Nat) :
    (mask &&& bit_not32 MBC_EDITUV) &&& x = mask &&& (bit_not32 MBC_EDITUV &&& x) :=
  Nat.and_assoc _ _ _

/-- C9: `MBC_EDITUV` is `0x02007E00`, bits 9 to 14 and bit 25; a flag meets it
exactly when it is one of the seven operands of the macro; and clearing it
from a mask (`mask & ~MBC_EDITUV`) clears the bits of those seven kinds and
leaves the bit of every other batch kind as it was. -/
theorem MBC_EDITUV_spec :
    MBC_EDITUV = 0x02007E00 ∧
    MBC_EDITUV = 2 ^ 9 + 2 ^ 10 + 2 ^ 11 + 2 ^ 12 + 2 ^ 13 + 2 ^ 14 + 2 ^ 25 ∧
    MBC_EDITUV_kinds.length = 7 ∧ MBC_EDITUV_kinds.Nodup ∧
    (∀ f : DRWBatchFlag, f.val &&& MBC_EDITUV ≠ 0 ↔ f ∈ MBC_EDITUV_kinds) ∧
    (∀ f : DRWBatchFlag, f.val &&& MBC_EDITUV ≠ 0 ↔
      f = MBC_EDITUV_FACES_STRETCH_AREA ∨ f = MBC_EDITUV_FACES_STRETCH_ANGLE ∨
      f = MBC_EDITUV_FACES ∨ f = MBC_EDITUV_EDGES ∨ f = MBC_EDITUV_VERTS ∨
      f = MBC_EDITUV_FACEDOTS ∨ f = MBC_WIRE_LOOPS_UVS) ∧
    (∀ (mask : Nat) (f : DRWBatchFlag), f ∉ MBC_EDITUV_kinds →
      (mask &&& bit_not32 MBC_EDITUV) &&& f.val = mask &&& f.val) ∧
    (∀ (mask : Nat) (f : DRWBatchFlag), f ∈ MBC_EDITUV_kinds →
      (mask &&& bit_not32 MBC_EDITUV) &&& f.val = 0) := by
  refine ⟨by decide, by decide, by decide, by decide, ?_, ?_, ?_, ?_⟩
  · intro f
    cases f <;> decide
  · intro f
    cases f <;> decide
  · intro mask f hf
    rw [and_bit_not32_MBC_EDITUV_and]
    have : bit_not32 MBC_EDITUV &&& f.val = f.val := by
      revert hf
      cases f <;> decide
    rw [this]
  · intro mask f hf
    rw [and_bit_not32_MBC_EDITUV_and]
    have : bit_not32 MBC_EDITUV &&& f.val = 0 := by
      revert hf
      cases f <;> decide
    rw [this, Nat.and_zero]

/-! ### `MeshBatchCache.batch` -/

/-- C7 as stated fails: the bit index of a flag is not the slot of the handle
it is named after.  `MBC_SKIN_ROOTS` is bit 26 and `batch.edit_skin_roots` is
slot 9; `MBC_EDITUV_FACES` is bit 11 and `batch.edituv_faces` is slot 12; and
bit 9 is `MBC_EDITUV_FACES_STRETCH_AREA` while slot 9 is `edit_skin_roots`. -/
theorem bit_index_eq_slot_index_fails :
    ¬ (∀ f : DRWBatchFlag, f.handle.slot_index = f.bit_index) ∧
    MBC_SKIN_ROOTS.handle = MeshBatchCache_batch.edit_skin_roots ∧
    MBC_SKIN_ROOTS.bit_index = 26 ∧ MBC_SKIN_ROOTS.val = 1 <<< 26 ∧
    MeshBatchCache_batch.edit_skin_roots.slot_index = 9 ∧
    MBC_EDITUV_FACES.handle = MeshBatchCache_batch.edituv_faces ∧
    MBC_EDITUV_FACES.bit_index = 11 ∧ MBC_EDITUV_FACES.val = 1 <<< 11 ∧
    MeshBatchCache_batch.edituv_faces.slot_index = 12 ∧
    MBC_EDITUV_FACES_STRETCH_AREA.val = 1 <<< 9 ∧
    MeshBatchCache_batch.all[9]? = some MeshBatchCache_batch.edit_skin_roots ∧
    MBC_EDITUV_FACES_STRETCH_AREA.handle ≠ MeshBatchCache_batch.edit_skin_roots := by
  refine ⟨?_, rfl, rfl, rfl, by decide, rfl, rfl, rfl, by decide, rfl, by decide, by decide⟩
  intro h
  exact absurd (h MBC_SKIN_ROOTS) (by decide)

/-- C7, amended: the number of slots `MBC_BATCH_LEN` is 28, the number of
flags, and the flags name the 28 handles one to one; the bit index of a flag
is the slot of the handle it is named after exactly for the bits 0 to 8 and
27; the handles of the bits 9 to 25 are one slot further (`slot = bit + 1`),
and `MBC_SKIN_ROOTS`, bit 26, names `batch.edit_skin_roots`, slot 9. -/
theorem DRWBatchFlag_bit_index_vs_batch_slot :
    MBC_BATCH_LEN 8 = 28 ∧ MBC_BATCH_LEN 4 = 28 ∧
    MBC_BATCH_LEN 8 = DRWBatchFlag.all.length ∧
    (DRWBatchFlag.all.map DRWBatchFlag.handle).Nodup ∧
    (∀ h : MeshBatchCache_batch, ∃ f : DRWBatchFlag, f.handle = h) ∧
    (∀ f : DRWBatchFlag, f.handle.slot_index < MBC_BATCH_LEN 8) ∧
    (∀ f : DRWBatchFlag, f.handle.slot_index = f.bit_index ↔
      f.bit_index ≤ 8 ∨ f.bit_index = 27) ∧
    (∀ f : DRWBatchFlag, 9 ≤ f.bit_index → f.bit_index ≤ 25 →
      f.handle.slot_index = f.bit_index + 1) ∧
    (∀ f : DRWBatchFlag, f.bit_index = 26 →
      f = MBC_SKIN_ROOTS ∧ f.handle = MeshBatchCache_batch.edit_skin_roots ∧
      f.handle.slot_index = 9) ∧
    DRWBatchFlag.all.map DRWBatchFlag.handle =
      (MeshBatchCache_batch.all.take 9 ++ (MeshBatchCache_batch.all.drop 10).take 17 ++
        [MeshBatchCache_batch.edit_skin_roots, MeshBatchCache_batch.sculpt_overlays]) := by
  refine ⟨by decide, by decide, by decide, by decide, ?_, ?_, ?_, ?_, ?_, by decide⟩
  · intro h
    cases h
    · exact ⟨MBC_SURFACE, rfl⟩
    · exact ⟨MBC_SURFACE_WEIGHTS, rfl⟩
    · exact ⟨MBC_EDIT_TRIANGLES, rfl⟩
    · exact ⟨MBC_EDIT_VERTICES, rfl⟩
    · exact ⟨MBC_EDIT_EDGES, rfl⟩
    · exact ⟨MBC_EDIT_VNOR, rfl⟩
    · exact ⟨MBC_EDIT_LNOR, rfl⟩
    · exact ⟨MBC_EDIT_FACEDOTS, rfl⟩
    · exact ⟨MBC_EDIT_MESH_ANALYSIS, rfl⟩
    · exact ⟨MBC_SKIN_ROOTS, rfl⟩
    · exact ⟨MBC_EDITUV_FACES_STRETCH_AREA, rfl⟩
    · exact ⟨MBC_EDITUV_FACES_STRETCH_ANGLE, rfl⟩
    · exact ⟨MBC_EDITUV_FACES, rfl⟩
    · exact ⟨MBC_EDITUV_EDGES, rfl⟩
    · exact ⟨MBC_EDITUV_VERTS, rfl⟩
    · exact ⟨MBC_EDITUV_FACEDOTS, rfl⟩
    · exact ⟨MBC_EDIT_SELECTION_VERTS, rfl⟩
    · exact ⟨MBC_EDIT_SELECTION_EDGES, rfl⟩
    · exact ⟨MBC_EDIT_SELECTION_FACES, rfl⟩
    · exact ⟨MBC_EDIT_SELECTION_FACEDOTS, rfl⟩
    · exact ⟨MBC_ALL_VERTS, rfl⟩
    · exact ⟨MBC_ALL_EDGES, rfl⟩
    · exact ⟨MBC_LOOSE_EDGES, rfl⟩
    · exact ⟨MBC_EDGE_DETECTION, rfl⟩
    · exact ⟨MBC_WIRE_EDGES, rfl⟩
    · exact ⟨MBC_WIRE_LOOPS, rfl⟩
    · exact ⟨MBC_WIRE_LOOPS_UVS, rfl⟩
    · exact ⟨MBC_SCULPT_OVERLAYS, rfl⟩
  · intro f
    cases f <;> decide
  · intro f
    cases f <;> decide
  · intro f
    cases f <;> decide
  · intro f
    cases f <;> decide

/-- C10 as described fails: the described numbers of handles (2, 5, 2, 1, 1, 6,
4, 6) add up to 27 while the struct has 28 members; there are four edit-mode
entity batches, not five, and eight common batches, not six. -/
theorem described_group_count_fails :
    ¬ (∀ g : BatchGroup, (batch_group_members g).length = described_group_count g) ∧
    (batch_group_members .edit_entity).length = 4 ∧ described_group_count .edit_entity = 5 ∧
    (batch_group_members .common).length = 8 ∧ described_group_count .common = 6 ∧
    (BatchGroup.all.map described_group_count).sum = 27 ∧
    MeshBatchCache_batch.all.length = 28 := by
  refine ⟨?_, by decide, rfl, by decide, rfl, by decide, by decide⟩
  intro h
  exact absurd (h .common) (by decide)

/-- C10, amended: the handles of `MeshBatchCache.batch` are surface and
surface-weights, four edit-mode entity batches (triangles, vertices, edges,
face dots), two normals batches, one mesh-analysis batch, one skin-roots
batch, six UV-edit batches, four selection batches and eight common batches
(all-verts, all-edges, loose-edges, edge-detection, the three wireframe
variants and sculpt-overlays): 28 handles, every one in exactly one group. -/
theorem MeshBatchCache_batch_groups :
    batch_group_members .surface = [.surface, .surface_weights] ∧
    batch_group_members .edit_entity =
      [.edit_triangles, .edit_vertices, .edit_edges, .edit_fdots] ∧
    batch_group_members .edit_normals = [.edit_vnor, .edit_lnor] ∧
    batch_group_members .edit_mesh_analysis = [.edit_mesh_analysis] ∧
    batch_group_members .edit_skin_roots = [.edit_skin_roots] ∧
    batch_group_members .edit_uv =
      [.edituv_faces_stretch_area, .edituv_faces_stretch_angle, .edituv_faces, .edituv_edges,
       .edituv_verts, .edituv_fdots] ∧
    batch_group_members .edit_selection =
      [.edit_selection_verts, .edit_selection_edges, .edit_selection_faces,
       .edit_selection_fdots] ∧
    batch_group_members .common =
      [.all_verts, .all_edges, .loose_edges, .edge_detection, .wire_edges, .wire_loops,
       .wire_loops_uvs, .sculpt_overlays] ∧
    BatchGroup.all.map (fun g => (batch_group_members g).length) = [2, 4, 2, 1, 1, 6, 4, 8] ∧
    MeshBatchCache_batch.all.length = 28 ∧ MBC_BATCH_LEN 8 = 28 ∧
    MeshBatchCache_batch.all.Nodup ∧
    (∀ h : MeshBatchCache_batch, h ∈ MeshBatchCache_batch.all) ∧
    (∀ h : MeshBatchCache_batch, h ∈ batch_group_members h.group) := by
  refine ⟨by decide, by decide, by decide, by decide, by decide, by decide, by decide,
    by decide, by decide, by decide, by decide, by decide, ?_, ?_⟩
  · intro h
    cases h <;> decide
  · intro h
    cases h <;> decide

/-! ### `FOREACH_MESH_BUFFER_CACHE` -/

/-- C8: with fuel for the four evaluations of its condition the loop
`FOREACH_MESH_BUFFER_CACHE` ends having run its body three times, with `final`,
`cage` and `uv_cage` in this order (with less fuel it has not ended); the step
takes `final` to `cage`, `cage` to `uv_cage` and `uv_cage` to `NULL`; the
condition holds for exactly these three pointers and fails for `NULL`. -/
theorem FOREACH_MESH_BUFFER_CACHE_spec (fuel : Nat) :
    FOREACH_MESH_BUFFER_CACHE (fuel + 4) = some [some .final, some .cage, some .uv_cage] ∧
    (FOREACH_MESH_BUFFER_CACHE 3 = none) ∧
    foreach_mesh_buffer_cache_init = some .final ∧
    foreach_mesh_buffer_cache_next (some .final) = some .cage ∧
    foreach_mesh_buffer_cache_next (some .cage) = some .uv_cage ∧
    foreach_mesh_buffer_cache_next (some .uv_cage) = none ∧
    (∀ mbc, foreach_mesh_buffer_cache_cond mbc = true ↔
      mbc = some .final ∨ mbc = some .cage ∨ mbc = some .uv_cage) ∧
    foreach_mesh_buffer_cache_cond none = false := by
  refine ⟨?_, by decide, rfl, by decide, by decide, by decide, ?_, by decide⟩
  · simp [FOREACH_MESH_BUFFER_CACHE, foreach_mesh_buffer_cache_from,
      foreach_mesh_buffer_cache_init, foreach_mesh_buffer_cache_cond,
      foreach_mesh_buffer_cache_next]
  · intro mbc
    rcases mbc with _ | _ | _ | _ <;> decide

/-! ### The layout of the "extend" vertex buffers -/

theorem ledge_entries_length (es : List Nat) :
    (es.flatMap (fun e => [ExtendEntry.ledge e 0, ExtendEntry.ledge e 1])).length =
      2 * es.length := by
  induction es with
  | nil => rfl
  | cons e rest ih =>
    simp only [List.flatMap_cons, List.length_append, List.length_cons, List.length_nil, ih]
    omega

theorem ledge_entries_get (es : List Nat) (k : Nat) :
    (es.flatMap (fun e => [ExtendEntry.ledge e 0, ExtendEntry.ledge e 1]))[2 * k]? =
        es[k]?.map (fun e => ExtendEntry.ledge e 0) ∧
    (es.flatMap (fun e => [ExtendEntry.ledge e 0, ExtendEntry.ledge e 1]))[2 * k + 1]? =
        es[k]?.map (fun e => ExtendEntry.ledge e 1) := by
  induction es generalizing k with
  | nil => simp
  | cons e rest ih =>
    cases k with
    | zero => simp [List.flatMap_cons]
    | succ k =>
      have h1 : 2 * (k + 1) = (2 * k) + 1 + 1 := by omega
      have h2 : 2 * (k + 1) + 1 = (2 * k + 1) + 1 + 1 := by omega
      rw [h2, h1]
      simp only [List.flatMap_cons, List.cons_append, List.nil_append,
        List.getElem?_cons_succ]
      exact ih k

theorem extend_vbo_length (loop_len : Nat) (ec : MeshBufferExtractionCache) :
    (extend_vbo loop_len ec).length = loop_len + 2 * ec.ledges.length + ec.lverts.length := by
  unfold extend_vbo
  rw [List.length_append, List.length_append, ledge_entries_length, List.length_map,
    List.length_map, List.length_range]

theorem extend_vbo_loop (loop_len : Nat) (ec : MeshBufferExtractionCache) (l : Nat)
    (hl : l < loop_len) : (extend_vbo loop_len ec)[l]? = some (ExtendEntry.loop l) := by
  unfold extend_vbo
  rw [List.append_assoc, List.getElem?_append_left (by simpa using hl)]
  simp [List.getElem?_map, List.getElem?_range hl]

theorem extend_vbo_ledge (loop_len : Nat) (ec : MeshBufferExtractionCache) (k : Nat)
    (hk : k < ec.ledges.length) :
    (extend_vbo loop_len ec)[loop_len + 2 * k]? =
        ec.ledges[k]?.map (fun e => ExtendEntry.ledge e 0) ∧
    (extend_vbo loop_len ec)[loop_len + 2 * k + 1]? =
        ec.ledges[k]?.map (fun e => ExtendEntry.ledge e 1) := by
  unfold extend_vbo
  have hlen := ledge_entries_length ec.ledges
  constructor
  · rw [List.append_assoc, List.getElem?_append_right (by simp),
      List.getElem?_append_left (by rw [hlen]; simp; omega)]
    simp only [List.length_map, List.length_range, Nat.add_sub_cancel_left]
    exact (ledge_entries_get ec.ledges k).1
  · rw [List.append_assoc, List.getElem?_append_right (by simp; omega),
      List.getElem?_append_left (by rw [hlen]; simp; omega)]
    simp only [List.length_map, List.length_range]
    have : loop_len + 2 * k + 1 - loop_len = 2 * k + 1 := by omega
    rw [this]
    exact (ledge_entries_get ec.ledges k).2

theorem extend_vbo_lvert (loop_len : Nat) (ec : MeshBufferExtractionCache) (j : Nat) :
    (extend_vbo loop_len ec)[loop_len + 2 * ec.ledges.length + j]? =
      ec.lverts[j]?.map ExtendEntry.lvert := by
  unfold extend_vbo
  have hlen := ledge_entries_length ec.ledges
  rw [List.getElem?_append_right (by simp [hlen])]
  simp [hlen, List.getElem?_map]

/-- C5: the layout of an "extend" vertex buffer of a Buffer Set with `loop_len`
face-loops, `edge_loose_len` loose edges and `vert_loose_len` loose vertices.
Its length is `loop_len + 2 * edge_loose_len + vert_loose_len`; loop `l` is at
index `l`; the `k`-th loose edge of `ledges` is at the indices
`loop_len + 2 * k` and `loop_len + 2 * k + 1`; the `j`-th loose vertex of
`lverts` is at index `loop_len + 2 * edge_loose_len + j`; and, the other way,
the element at an index `i` comes from a loop exactly in the first range, from
a loose edge exactly in the second and from a loose vertex exactly in the
third, so the three ranges follow one another and every index is in exactly
one of them. -/
theorem extend_vbo_layout (loop_len : Nat) (ec : MeshBufferExtractionCache) (h : ec.wf) :
    (extend_vbo loop_len ec).length = loop_len + 2 * ec.edge_loose_len + ec.vert_loose_len ∧
    (∀ l, l < loop_len → (extend_vbo loop_len ec)[l]? = some (ExtendEntry.loop l)) ∧
    (∀ k, k < ec.edge_loose_len → ∃ e, ec.ledges[k]? = some e ∧
      (extend_vbo loop_len ec)[loop_len + 2 * k]? = some (ExtendEntry.ledge e 0) ∧
      (extend_vbo loop_len ec)[loop_len + 2 * k + 1]? = some (ExtendEntry.ledge e 1)) ∧
    (∀ j, j < ec.vert_loose_len → ∃ v, ec.lverts[j]? = some v ∧
      (extend_vbo loop_len ec)[loop_len + 2 * ec.edge_loose_len + j]? =
        some (ExtendEntry.lvert v)) ∧
    (∀ i x, (extend_vbo loop_len ec)[i]? = some x →
      match x with
      | ExtendEntry.loop l => i < loop_len ∧ l = i
      | ExtendEntry.ledge e corner =>
        loop_len ≤ i ∧ i < loop_len + 2 * ec.edge_loose_len ∧
        corner = (i - loop_len) % 2 ∧ ec.ledges[(i - loop_len) / 2]? = some e
      | ExtendEntry.lvert v =>
        loop_len + 2 * ec.edge_loose_len ≤ i ∧
        i < loop_len + 2 * ec.edge_loose_len + ec.vert_loose_len ∧
        ec.lverts[i - (loop_len + 2 * ec.edge_loose_len)]? = some v) := by
  obtain ⟨hE, hV⟩ := h
  have hlen := extend_vbo_length loop_len ec
  rw [hE, hV] at hlen
  have hledge : ∀ k, k < ec.edge_loose_len → ∃ e, ec.ledges[k]? = some e ∧
      (extend_vbo loop_len ec)[loop_len + 2 * k]? = some (ExtendEntry.ledge e 0) ∧
      (extend_vbo loop_len ec)[loop_len + 2 * k + 1]? = some (ExtendEntry.ledge e 1) := by
    intro k hk
    have hk2 : k < ec.ledges.length := by omega
    obtain ⟨h0, h1⟩ := extend_vbo_ledge loop_len ec k hk2
    refine ⟨ec.ledges[k], List.getElem?_eq_getElem hk2, ?_, ?_⟩
    · rw [h0, List.getElem?_eq_getElem hk2]
      rfl
    · rw [h1, List.getElem?_eq_getElem hk2]
      rfl
  have hlvert : ∀ j, j < ec.vert_loose_len → ∃ v, ec.lverts[j]? = some v ∧
      (extend_vbo loop_len ec)[loop_len + 2 * ec.edge_loose_len + j]? =
        some (ExtendEntry.lvert v) := by
    intro j hj
    have hj2 : j < ec.lverts.length := by omega
    refine ⟨ec.lverts[j], List.getElem?_eq_getElem hj2, ?_⟩
    rw [← hE, extend_vbo_lvert, List.getElem?_eq_getElem hj2]
    rfl
  refine ⟨hlen, fun l hl => extend_vbo_loop loop_len ec l hl, hledge, hlvert, ?_⟩
  intro i x hx
  have hi : i < (extend_vbo loop_len ec).length := by
    by_contra hge
    rw [List.getElem?_eq_none (by omega)] at hx
    exact absurd hx (by simp)
  rw [hlen] at hi
  by_cases h1 : i < loop_len
  · rw [extend_vbo_loop loop_len ec i h1] at hx
    obtain rfl := Option.some.inj hx
    exact ⟨h1, rfl⟩
  · by_cases h2 : i < loop_len + 2 * ec.edge_loose_len
    · obtain ⟨e, he, h0, h1e⟩ := hledge ((i - loop_len) / 2) (by omega)
      rcases Nat.mod_two_eq_zero_or_one (i - loop_len) with hm | hm
      · have hidx : loop_len + 2 * ((i - loop_len) / 2) = i := by omega
        rw [hidx] at h0
        rw [h0] at hx
        obtain rfl := Option.some.inj hx
        exact ⟨by omega, h2, hm.symm, he⟩
      · have hidx : loop_len + 2 * ((i - loop_len) / 2) + 1 = i := by omega
        rw [hidx] at h1e
        rw [h1e] at hx
        obtain rfl := Option.some.inj hx
        exact ⟨by omega, h2, hm.symm, he⟩
    · obtain ⟨v, hv, hget⟩ := hlvert (i - (loop_len + 2 * ec.edge_loose_len)) (by omega)
      have hidx : loop_len + 2 * ec.edge_loose_len + (i - (loop_len + 2 * ec.edge_loose_len)) = i := by
        omega
      rw [hidx] at hget
      rw [hget] at hx
      obtain rfl := Option.some.inj hx
      exact ⟨by omega, hi, hv⟩

/-- Witness of C5: 3 face-loops, the loose edges 7 and 9 and the loose vertex 4
give the buffer `loop 0, loop 1, loop 2, edge 7, edge 7, edge 9, edge 9,
vertex 4` of length `3 + 2 * 2 + 1`. -/
theorem extend_vbo_layout_witness :
    (⟨2, 1, [4], [7, 9]⟩ : MeshBufferExtractionCache).wf ∧
    (extend_vbo 3 ⟨2, 1, [4], [7, 9]⟩).length = 3 + 2 * 2 + 1 ∧
    extend_vbo 3 ⟨2, 1, [4], [7, 9]⟩ =
      [.loop 0, .loop 1, .loop 2, .ledge 7 0, .ledge 7 1, .ledge 9 0, .ledge 9 1, .lvert 4] :=
  ⟨by decide, (extend_vbo_layout 3 ⟨2, 1, [4], [7, 9]⟩ (by decide)).1, by decide⟩

/-! ### The request dispatcher -/

theorem or_or_self_right (x y : Nat) : x ||| y ||| y = x ||| y := by
  rw [Nat.or_assoc, Nat.or_self]

theorem mesh_cd_layers_type_merge_absorb {c n : DRW_MeshCDMask} (hc : c.wf) (hn : n.wf) :
    mesh_cd_layers_type_merge (mesh_cd_layers_type_merge c n) n =
      mesh_cd_layers_type_merge c n := by
  rw [mesh_cd_layers_type_merge_eq hc hn,
    mesh_cd_layers_type_merge_eq (DRW_MeshCDMask.or_fields_wf hc hn) hn]
  simp [DRW_MeshCDMask.or_fields, or_or_self_right]

theorem batch_mask_and_ne_zero (kinds : List DRWBatchFlag) (f : DRWBatchFlag) :
    batch_mask kinds &&& f.val ≠ 0 ↔ f ∈ kinds := by
  unfold batch_mask
  rw [foldl_or_and_ne_zero]
  simp

theorem mem_all (f : DRWBatchFlag) : f ∈ DRWBatchFlag.all := by
  cases f <;> decide

theorem mem_pending_kinds (batch_ready requested : Nat) (f : DRWBatchFlag) :
    f ∈ pending_kinds batch_ready requested ↔
      requested &&& f.val ≠ 0 ∧ batch_ready &&& f.val = 0 := by
  unfold pending_kinds
  simp [List.mem_filter, mem_all]

theorem ready_after_pending (batch_ready requested : Nat) (f : DRWBatchFlag)
    (hf : requested &&& f.val ≠ 0) :
    (batch_ready ||| batch_mask (pending_kinds batch_ready requested)) &&& f.val ≠ 0 := by
  rw [or_and_ne_zero_iff, batch_mask_and_ne_zero, mem_pending_kinds]
  by_cases h : batch_ready &&& f.val = 0
  · exact Or.inr ⟨hf, h⟩
  · exact Or.inl h

theorem pending_kinds_after (batch_ready requested : Nat) :
    pending_kinds (batch_ready ||| batch_mask (pending_kinds batch_ready requested))
      requested = [] := by
  apply List.eq_nil_iff_forall_not_mem.2
  intro f hf
  rw [mem_pending_kinds] at hf
  exact ready_after_pending batch_ready requested f hf.1 hf.2

theorem ensure_batches_pending_nil {σ β : Type} [DecidableEq σ] (D : Dispatcher σ β)
    (cache : MeshBatchCache σ β) (me : Mesh) :
    ensure_batches_pending D cache me cache.cd_used_over_time [] =
      (cache, { scanned := [], extracted := [] }) := by
  rcases cache with ⟨buffers, memo, batch, ready, cd⟩
  simp [ensure_batches_pending, batch_mask]

theorem ensure_batches_ready {σ β : Type} [DecidableEq σ] (D : Dispatcher σ β)
    (cache : MeshBatchCache σ β) (requested : Nat) (me : Mesh) :
    (ensure_batches D cache requested me).1.batch_ready =
      cache.batch_ready ||| batch_mask (pending_kinds cache.batch_ready requested) :=
  rfl

theorem ensure_batches_cd {σ β : Type} [DecidableEq σ] (D : Dispatcher σ β)
    (cache : MeshBatchCache σ β) (requested : Nat) (me : Mesh) :
    (ensure_batches D cache requested me).1.cd_used_over_time =
      mesh_cd_layers_type_merge cache.cd_used_over_time (D.compute_needed me) :=
  rfl

/-- C6: the request dispatcher is idempotent.  For every cache whose attribute
mask is well formed, every mesh and every requested mask: after a first call
every requested batch kind is in `batch_ready`, and a second call with the
same requested mask and the same mesh scans no loose geometry, extracts no
buffer and returns the cache of the first call, with every buffer slot, memo,
batch handle, the `batch_ready` mask and the attribute mask as they were. -/
theorem ensure_batches_idempotent {σ β : Type} [DecidableEq σ] (D : Dispatcher σ β)
    (cache : MeshBatchCache σ β) (requested : Nat) (me : Mesh)
    (hc : cache.cd_used_over_time.wf) (hn : (D.compute_needed me).wf) :
    (∀ f : DRWBatchFlag, requested &&& f.val ≠ 0 →
      (ensure_batches D cache requested me).1.batch_ready &&& f.val ≠ 0) ∧
    pending_kinds (ensure_batches D cache requested me).1.batch_ready requested = [] ∧
    (ensure_batches D (ensure_batches D cache requested me).1 requested me).2 =
      { scanned := [], extracted := [] } ∧
    (ensure_batches D (ensure_batches D cache requested me).1 requested me).1 =
      (ensure_batches D cache requested me).1 := by
  have hp : pending_kinds (ensure_batches D cache requested me).1.batch_ready requested = [] := by
    rw [ensure_batches_ready]
    exact pending_kinds_after cache.batch_ready requested
  have hcd : mesh_cd_layers_type_merge
      (ensure_batches D cache requested me).1.cd_used_over_time (D.compute_needed me) =
      (ensure_batches D cache requested me).1.cd_used_over_time := by
    rw [ensure_batches_cd]
    exact mesh_cd_layers_type_merge_absorb hc hn
  have h2 : ensure_batches D (ensure_batches D cache requested me).1 requested me =
      ((ensure_batches D cache requested me).1, { scanned := [], extracted := [] }) := by
    generalize hs : (ensure_batches D cache requested me).1 = s at hp hcd
    unfold ensure_batches
    rw [hp, hcd]
    exact ensure_batches_pending_nil D s me
  refine ⟨?_, hp, ?_, ?_⟩
  · intro f hf
    rw [ensure_batches_ready]
    exact ready_after_pending cache.batch_ready requested f hf
  · rw [h2]
  · rw [h2]

/-- Witness of C6: on the empty cache the sample dispatcher, asked for
`MBC_SURFACE | MBC_SURFACE_WEIGHTS`, scans the loose geometry of `final` and
extracts the slots 1, 0 and 2, each once; the masks are well formed; asked again, it does
no work. -/
theorem ensure_batches_idempotent_witness :
    empty_cache.cd_used_over_time.wf ∧
    (sample_dispatcher.compute_needed (Mesh.mk 0 none)).wf ∧
    (ensure_batches sample_dispatcher empty_cache 3 (Mesh.mk 0 none)).2 =
      { scanned := [MeshBufferCacheRef.final], extracted := [1, 0, 2] } ∧
    (ensure_batches sample_dispatcher empty_cache 3 (Mesh.mk 0 none)).1.batch_ready = 3 ∧
    (ensure_batches sample_dispatcher
      (ensure_batches sample_dispatcher empty_cache 3 (Mesh.mk 0 none)).1 3 (Mesh.mk 0 none)).2 =
      { scanned := [], extracted := [] } :=
  ⟨by decide, by decide, by decide, by decide,
    (ensure_batches_idempotent sample_dispatcher empty_cache 3 (Mesh.mk 0 none)
      (by decide) (by decide)).2.2.1⟩

end DrawCacheExtract
